import Mathlib

/-!
Shallow embedding of the webhook update-processing core of `app.py`
(email-automation bot): update deduplication (`processed_updates`),
per-chat sender-filter sessions (`user_sender_names`), the retrying
delivery primitive (`send_message_with_retry`), and the sequential
fetch → analyze → deliver → persist pipeline run by `/checkemails`.

External collaborators (Telegram send, Gmail fetch, OpenRouter
analysis, Sheets append) are modelled as an environment of pure
functions returning `Except String _`, where the `String` carries the
Python exception text `str(e)`.  Effects are made explicit: the list of
successfully delivered `(chat_id, text)` messages, the list of
persisted `(subject, suggestion)` rows, and a flag telling whether the
handler returned its "OK" acknowledgement (`true`) or let an exception
propagate out of the handler (`false`).
-/

set_option autoImplicit false

namespace EmailBot

/-- Decidable equality for collaborator results, so that concrete runs
can be checked by `decide`. -/
def exceptDecEq {ε α : Type} [DecidableEq ε] [DecidableEq α] :
    DecidableEq (Except ε α)
  | .ok a, .ok b =>
    if h : a = b then .isTrue (congrArg Except.ok h)
    else .isFalse (fun hh => h (by injection hh))
  | .ok _, .error _ => .isFalse (fun hh => Except.noConfusion hh)
  | .error _, .ok _ => .isFalse (fun hh => Except.noConfusion hh)
  | .error a, .error b =>
    if h : a = b then .isTrue (congrArg Except.error h)
    else .isFalse (fun hh => h (by injection hh))

instance {ε α : Type} [DecidableEq ε] [DecidableEq α] :
    DecidableEq (Except ε α) := exceptDecEq

/-- An email item as produced by `fetch_emails`: subject and body. -/
structure EmailItem where
  subject : String
  body : String
deriving DecidableEq

/-- Python `str.strip()` on the message text (line 117 of `app.py`):
drop leading and trailing whitespace characters. -/
def strip (s : String) : String :=
  String.mk (((s.toList.dropWhile Char.isWhitespace).reverse.dropWhile
    Char.isWhitespace).reverse)

/-- Python `text.startswith("/")` (line 157): the first character of
the text is a slash. -/
def startsWithSlash (s : String) : Bool :=
  match s.toList with
  | [] => false
  | c :: _ => c = '/'

/-- Lookup in the `user_sender_names` dict, modelled as an association
list keyed by `chat_id`. -/
def lookupSender : List (Nat × String) → Nat → Option String
  | [], _ => none
  | (k, v) :: rest, c => if k = c then some v else lookupSender rest c

/-- Dict assignment `user_sender_names[chat_id] = text` (line 197). -/
def setSender : List (Nat × String) → Nat → String → List (Nat × String)
  | [], c, v => [(c, v)]
  | (k, w) :: rest, c, v =>
    if k = c then (c, v) :: rest else (k, w) :: setSender rest c v

/-- Dict removal `user_sender_names.pop(chat_id, None)` (line 133). -/
def popSender : List (Nat × String) → Nat → List (Nat × String)
  | [], _ => []
  | (k, w) :: rest, c =>
    if k = c then popSender rest c else (k, w) :: popSender rest c

/-- The in-memory state shared across webhook invocations:
`processed_updates` (dedup set, line 44) and `user_sender_names`
(session map, line 47). -/
structure BotState where
  processed_updates : List Nat
  user_sender_names : List (Nat × String)
deriving DecidableEq

/-- Outcome of one raw `bot.send_message` attempt: success, or one of
the exception classes distinguished by `send_message_with_retry`. -/
inductive SendOutcome where
  | success : SendOutcome
  | timedOut : String → SendOutcome
  | networkError : String → SendOutcome
  | otherError : String → SendOutcome
deriving DecidableEq

/-- The two exception classes retried by `send_message_with_retry`. -/
def isTransient : SendOutcome → Bool
  | .timedOut _ => true
  | .networkError _ => true
  | _ => false

/-- The retry loop of `send_message_with_retry` (lines 76-99).  `send`
gives the outcome of the raw send at each attempt index; the result is
`(number of send calls, list of sleep delays, final outcome)`.  A
transient failure at `attempt < max_retries - 1` sleeps `2 ^ attempt`
and retries; the last attempt re-raises; any other exception is
re-raised at once.  If the loop runs out of iterations the Python
function falls through and returns `None`, i.e. success. -/
def retryAux (send : Nat → SendOutcome) (maxRetries : Nat) :
    Nat → Nat → Nat × List Nat × Except String Unit
  | _, 0 => (0, [], .ok ())
  | attempt, remaining + 1 =>
    match send attempt with
    | .success => (1, [], .ok ())
    | .timedOut e =>
      if attempt < maxRetries - 1 then
        let r := retryAux send maxRetries (attempt + 1) remaining
        (r.1 + 1, 2 ^ attempt :: r.2.1, r.2.2)
      else (1, [], .error e)
    | .networkError e =>
      if attempt < maxRetries - 1 then
        let r := retryAux send maxRetries (attempt + 1) remaining
        (r.1 + 1, 2 ^ attempt :: r.2.1, r.2.2)
      else (1, [], .error e)
    | .otherError e => (1, [], .error e)

/-- `send_message_with_retry(bot, chat_id, text, max_retries)`: run the
retry loop from attempt 0. -/
def send_message_with_retry (send : Nat → SendOutcome) (maxRetries : Nat) :
    Nat × List Nat × Except String Unit :=
  retryAux send maxRetries 0 maxRetries

/-- The external collaborators as seen by the webhook handler.
`deliver` is the overall outcome of `send_message_with_retry` for one
message; the other fields are `fetch_emails` (with and without
`return_senders`), `analyze_email` and `save_to_drive`.  An `.error e`
models a raised exception with text `e`. -/
structure Env where
  fetchEmails : String → Except String (List EmailItem)
  listSenders : Except String (List String)
  analyzeEmail : EmailItem → Except String String
  saveToDrive : EmailItem → String → Except String Unit
  deliver : Nat → String → Except String Unit

/-- The `/start` welcome message (lines 123-130), with
`PREDEFINED_SENDERS = ["Mehrbod", "Donchamp"]` joined by `", "`. -/
def startMessage : String :=
  "Welcome to the Email Analyzer Bot!\n" ++
  "Please choose a sender to filter emails from:\n" ++
  "Predefined options: " ++ String.intercalate ", " ["Mehrbod", "Donchamp"] ++ "\n" ++
  "Or reply with a custom name or email.\n" ++
  "Use /listsenders to see senders of latest unread emails.\n" ++
  "Then use /checkemails to fetch and analyze the filtered emails."

/-- The suggestion message for one analyzed email (line 181). -/
def susMsg (subject suggestion : String) : String :=
  "Subject: " ++ subject ++ "\nSuggested Reply: " ++ suggestion

/-- Reply when `/checkemails` arrives with no sender selected
(line 163). -/
def promptMsg : String :=
  "Please reply with a sender name first, then use /checkemails."

/-- Reply to an unrecognized command (line 193). -/
def unknownMsg : String :=
  "Please use /start, /listsenders, or /checkemails, or reply with a sender name."

/-- Acknowledgement after storing a sender filter (line 200). -/
def ackMsg (text : String) : String :=
  "Selected sender: " ++ text ++ ". Now use /checkemails to fetch their emails."

/-- The `/listsenders` reply listing senders (lines 145-150). -/
def sendersMsg (senders : List String) : String :=
  "Senders of the latest unread emails:\n" ++
  String.intercalate "\n" (senders.map (fun s => "- " ++ s)) ++
  "\nReply with one of these names or another sender to filter emails, then use /checkemails."

/-- One step of the `/checkemails` loop body per email (lines 176-184):
analyze, deliver the suggestion, persist.  Returns the delivered
messages, the persisted `(subject, suggestion)` rows, and the text of
the first raised exception if any; effects already performed before the
failure are kept (no rollback). -/
def processEmails (env : Env) (chat : Nat) :
    List EmailItem → List (Nat × String) × List (String × String) × Option String
  | [] => ([], [], none)
  | e :: rest =>
    match env.analyzeEmail e with
    | .error err => ([], [], some err)
    | .ok sugg =>
      match env.deliver chat (susMsg e.subject sugg) with
      | .error err => ([], [], some err)
      | .ok _ =>
        match env.saveToDrive e sugg with
        | .error err => ([(chat, susMsg e.subject sugg)], [], some err)
        | .ok _ =>
          let r := processEmails env chat rest
          ((chat, susMsg e.subject sugg) :: r.1, (e.subject, sugg) :: r.2.1, r.2.2)

/-- The body of the `try` block of `/checkemails` (lines 169-186):
fetch, then either the empty-result message or the per-email loop
followed by the terminal message. -/
def runCheckEmails (env : Env) (chat : Nat) (sender : String) :
    List (Nat × String) × List (String × String) × Option String :=
  match env.fetchEmails sender with
  | .error err => ([], [], some err)
  | .ok emails =>
    if emails = [] then
      match env.deliver chat ("No unread emails found from " ++ sender ++ ".") with
      | .error err => ([], [], some err)
      | .ok _ => ([(chat, "No unread emails found from " ++ sender ++ ".")], [], none)
    else
      let r := processEmails env chat emails
      match r.2.2 with
      | some err => (r.1, r.2.1, some err)
      | none =>
        match env.deliver chat "All emails processed." with
        | .error err => (r.1, r.2.1, some err)
        | .ok _ => (r.1 ++ [(chat, "All emails processed.")], r.2.1, none)

/-- The body of the `try` block of `/listsenders` (lines 139-151). -/
def runListSenders (env : Env) (chat : Nat) :
    List (Nat × String) × List (String × String) × Option String :=
  match env.listSenders with
  | .error err => ([], [], some err)
  | .ok senders =>
    if senders = [] then
      match env.deliver chat "No unread emails found." with
      | .error err => ([], [], some err)
      | .ok _ => ([(chat, "No unread emails found.")], [], none)
    else
      match env.deliver chat (sendersMsg senders) with
      | .error err => ([], [], some err)
      | .ok _ => ([(chat, sendersMsg senders)], [], none)

/-- The `except Exception` wrapper around a `try` body (lines 152-154
and 187-189): on a raised exception, attempt to deliver
`"Error: " ++ err`; if that delivery itself raises, the exception
propagates out of the handler (third component `false`). -/
def withErrorCatch (env : Env) (chat : Nat)
    (body : List (Nat × String) × List (String × String) × Option String) :
    List (Nat × String) × List (String × String) × Bool :=
  match body.2.2 with
  | none => (body.1, body.2.1, true)
  | some err =>
    match env.deliver chat ("Error: " ++ err) with
    | .ok _ => (body.1 ++ [(chat, "Error: " ++ err)], body.2.1, true)
    | .error _ => (body.1, body.2.1, false)

/-- Result of handling one message text for one chat: the updated
`user_sender_names` map, the delivered messages, the persisted rows,
and whether control returned normally (`true`) or an exception escaped
the handler (`false`). -/
structure HandleResult where
  senders : List (Nat × String)
  sends : List (Nat × String)
  saved : List (String × String)
  ok : Bool
deriving DecidableEq

/-- The command dispatch on a message (lines 115-201 of `app.py`),
operating on the current `user_sender_names` map.  The text is stripped
first; then `/start`, `/listsenders`, the command-or-filter-set branch
(entered when a filter is set or the text begins with `/`), and the
store-sender fallback are tried in that order, exactly as in the
source. -/
def handleMessage (env : Env) (senders : List (Nat × String)) (chat : Nat)
    (raw : String) : HandleResult :=
  let text := strip raw
  if text = "/start" then
    match env.deliver chat startMessage with
    | .error _ => ⟨senders, [], [], false⟩
    | .ok _ => ⟨popSender senders chat, [(chat, startMessage)], [], true⟩
  else if text = "/listsenders" then
    let r := withErrorCatch env chat (runListSenders env chat)
    ⟨senders, r.1, r.2.1, r.2.2⟩
  else if (lookupSender senders chat).isSome || startsWithSlash text then
    if text = "/checkemails" then
      match lookupSender senders chat with
      | none =>
        match env.deliver chat promptMsg with
        | .error _ => ⟨senders, [], [], false⟩
        | .ok _ => ⟨senders, [(chat, promptMsg)], [], true⟩
      | some sender =>
        let r := withErrorCatch env chat (runCheckEmails env chat sender)
        ⟨senders, r.1, r.2.1, r.2.2⟩
    else
      match env.deliver chat unknownMsg with
      | .error _ => ⟨senders, [], [], false⟩
      | .ok _ => ⟨senders, [(chat, unknownMsg)], [], true⟩
  else
    match env.deliver chat (ackMsg text) with
    | .error _ => ⟨setSender senders chat text, [], [], false⟩
    | .ok _ => ⟨setSender senders chat text, [(chat, ackMsg text)], [], true⟩

/-- An inbound update after JSON decoding: its `update_id` and, when a
message with text is present, the `(chat_id, text)` pair. -/
structure InboundUpdate where
  update_id : Nat
  message : Option (Nat × String)
deriving DecidableEq

/-- Result of one webhook invocation: the new shared state, the
delivered messages in order, the persisted rows in order, and whether
the handler returned its fixed "OK" acknowledgement (`true`) or an
exception propagated out of it (`false`). -/
structure WebhookResult where
  state : BotState
  sends : List (Nat × String)
  saved : List (String × String)
  ok : Bool
deriving DecidableEq

/-- The webhook handler (lines 101-203).  `none` models a request whose
JSON is missing or lacks `update_id` (ignored with "OK").  A duplicate
`update_id` is skipped; otherwise the id is recorded before any message
handling, so it stays recorded even when handling raises. -/
def webhook (env : Env) (st : BotState) (upd : Option InboundUpdate) :
    WebhookResult :=
  match upd with
  | none => ⟨st, [], [], true⟩
  | some u =>
    if u.update_id ∈ st.processed_updates then ⟨st, [], [], true⟩
    else
      match u.message with
      | none => ⟨⟨u.update_id :: st.processed_updates, st.user_sender_names⟩, [], [], true⟩
      | some (chat, raw) =>
        let h := handleMessage env st.user_sender_names chat raw
        ⟨⟨u.update_id :: st.processed_updates, h.senders⟩, h.sends, h.saved, h.ok⟩

/-! ### Helper lemmas about the session map and the dispatch -/

theorem lookupSender_popSender (m : List (Nat × String)) (c : Nat) :
    lookupSender (popSender m c) c = none := by
  induction m with
  | nil => rfl
  | cons p rest ih =>
    obtain ⟨k, v⟩ := p
    by_cases h : k = c
    · simp [popSender, h, ih]
    · simp [popSender, lookupSender, h, ih]

theorem lookupSender_setSender (m : List (Nat × String)) (c : Nat) (v : String) :
    lookupSender (setSender m c v) c = some v := by
  induction m with
  | nil => simp [setSender, lookupSender]
  | cons p rest ih =>
    obtain ⟨k, w⟩ := p
    by_cases h : k = c
    · simp [setSender, h, lookupSender]
    · simp [setSender, lookupSender, h, ih]

theorem handleMessage_senders_checkemails (env : Env) (m : List (Nat × String))
    (chat : Nat) (raw : String) (h : strip raw = "/checkemails") :
    (handleMessage env m chat raw).senders = m := by
  have hs : startsWithSlash "/checkemails" = true := by decide
  simp only [handleMessage, h]
  rw [if_neg (by decide), if_neg (by decide)]
  cases hl : lookupSender m chat with
  | none => cases hd : env.deliver chat promptMsg <;> simp [hl, hd, hs]
  | some s => simp [hl, hs]

theorem handleMessage_senders_listsenders (env : Env) (m : List (Nat × String))
    (chat : Nat) (raw : String) (h : strip raw = "/listsenders") :
    (handleMessage env m chat raw).senders = m := by
  simp only [handleMessage, h]
  rw [if_neg (by decide)]
  simp

/-! ### Lemmas about the retry loop -/

theorem retryAux_transient_run (send : Nat → SendOutcome) (maxr : Nat) :
    ∀ (k attempt : Nat), attempt + k < maxr →
      (∀ i, attempt ≤ i → i < attempt + k → isTransient (send i) = true) →
      send (attempt + k) = .success →
      retryAux send maxr attempt (maxr - attempt) =
        (k + 1, (List.range' attempt k).map (fun j => 2 ^ j), .ok ()) := by
  intro k
  induction k with
  | zero =>
    intro attempt hlt _ hsucc
    have h1 : maxr - attempt = (maxr - attempt - 1) + 1 := by omega
    rw [Nat.add_zero] at hsucc
    rw [h1]
    simp [retryAux, hsucc]
  | succ k ih =>
    intro attempt hlt htr hsucc
    have h1 : maxr - attempt = (maxr - (attempt + 1)) + 1 := by omega
    have htra : isTransient (send attempt) = true :=
      htr attempt (Nat.le_refl _) (by omega)
    have hrec := ih (attempt + 1) (by omega)
      (fun i hi1 hi2 => htr i (by omega) (by omega))
      (by rw [show attempt + 1 + k = attempt + (k + 1) by omega]; exact hsucc)
    cases hsa : send attempt with
    | success => rw [hsa] at htra; exact absurd htra (by simp [isTransient])
    | otherError e => rw [hsa] at htra; exact absurd htra (by simp [isTransient])
    | timedOut e =>
      rw [h1]
      simp only [retryAux, hsa]
      rw [if_pos (by omega), hrec]
      simp [List.range'_succ]
    | networkError e =>
      rw [h1]
      simp only [retryAux, hsa]
      rw [if_pos (by omega), hrec]
      simp [List.range'_succ]

theorem retryAux_all_transient (send : Nat → SendOutcome) (maxr : Nat) :
    ∀ (remaining attempt : Nat), attempt + remaining = maxr → 1 ≤ remaining →
      (∀ i, attempt ≤ i → i < maxr → isTransient (send i) = true) →
      ∃ m, retryAux send maxr attempt remaining =
        (remaining, (List.range' attempt (remaining - 1)).map (fun j => 2 ^ j),
          .error m) := by
  intro remaining
  induction remaining with
  | zero => intro attempt _ h2 _; omega
  | succ r ih =>
    intro attempt heq _ htr
    have htra : isTransient (send attempt) = true :=
      htr attempt (Nat.le_refl _) (by omega)
    cases hsa : send attempt with
    | success => rw [hsa] at htra; exact absurd htra (by simp [isTransient])
    | otherError e => rw [hsa] at htra; exact absurd htra (by simp [isTransient])
    | timedOut e =>
      cases r with
      | zero =>
        refine ⟨e, ?_⟩
        simp only [retryAux, hsa]
        rw [if_neg (by omega)]
        simp
      | succ r2 =>
        obtain ⟨m, hm⟩ := ih (attempt + 1) (by omega) (by omega)
          (fun i hi1 hi2 => htr i (by omega) hi2)
        refine ⟨m, ?_⟩
        rw [retryAux.eq_def]
        simp only [hsa]
        rw [if_pos (by omega), hm]
        simp [List.range'_succ]
    | networkError e =>
      cases r with
      | zero =>
        refine ⟨e, ?_⟩
        simp only [retryAux, hsa]
        rw [if_neg (by omega)]
        simp
      | succ r2 =>
        obtain ⟨m, hm⟩ := ih (attempt + 1) (by omega) (by omega)
          (fun i hi1 hi2 => htr i (by omega) hi2)
        refine ⟨m, ?_⟩
        rw [retryAux.eq_def]
        simp only [hsa]
        rw [if_pos (by omega), hm]
        simp [List.range'_succ]

/-! ### Characterizations of the dispatch branches -/

theorem handleMessage_start (env : Env) (m : List (Nat × String)) (chat : Nat)
    (raw : String) (h : strip raw = "/start") :
    handleMessage env m chat raw =
      match env.deliver chat startMessage with
      | .error _ => ⟨m, [], [], false⟩
      | .ok _ => ⟨popSender m chat, [(chat, startMessage)], [], true⟩ := by
  simp only [handleMessage, h]
  simp

theorem handleMessage_checkemails_nofilter (env : Env) (m : List (Nat × String))
    (chat : Nat) (raw : String) (h : strip raw = "/checkemails")
    (hl : lookupSender m chat = none) :
    handleMessage env m chat raw =
      match env.deliver chat promptMsg with
      | .error _ => ⟨m, [], [], false⟩
      | .ok _ => ⟨m, [(chat, promptMsg)], [], true⟩ := by
  have hs : startsWithSlash "/checkemails" = true := by decide
  simp only [handleMessage, h]
  rw [if_neg (by decide), if_neg (by decide)]
  simp [hl, hs]

theorem handleMessage_checkemails_filter (env : Env) (m : List (Nat × String))
    (chat : Nat) (raw sender : String) (h : strip raw = "/checkemails")
    (hl : lookupSender m chat = some sender) :
    handleMessage env m chat raw =
      ⟨m, (withErrorCatch env chat (runCheckEmails env chat sender)).1,
        (withErrorCatch env chat (runCheckEmails env chat sender)).2.1,
        (withErrorCatch env chat (runCheckEmails env chat sender)).2.2⟩ := by
  simp only [handleMessage, h]
  rw [if_neg (by decide), if_neg (by decide)]
  simp [hl]

theorem handleMessage_freetext (env : Env) (m : List (Nat × String))
    (chat : Nat) (raw : String) (hl : lookupSender m chat = none)
    (hsw : startsWithSlash (strip raw) = false) :
    (handleMessage env m chat raw).senders = setSender m chat (strip raw) := by
  have h1 : strip raw ≠ "/start" := by
    intro hh; rw [hh] at hsw; exact absurd hsw (by decide)
  have h2 : strip raw ≠ "/listsenders" := by
    intro hh; rw [hh] at hsw; exact absurd hsw (by decide)
  simp only [handleMessage]
  rw [if_neg h1, if_neg h2, hl]
  simp only [Option.isSome_none, Bool.false_or, hsw]
  cases env.deliver chat (ackMsg (strip raw)) <;> simp

/-! ### The pipeline keeps the effects of a successful prefix -/

theorem processEmails_ok_front (env : Env) (chat : Nat)
    (pre rest : List EmailItem) (sugg : EmailItem → String)
    (hA : ∀ e ∈ pre, env.analyzeEmail e = .ok (sugg e))
    (hD : ∀ e ∈ pre, env.deliver chat (susMsg e.subject (sugg e)) = .ok ())
    (hS : ∀ e ∈ pre, env.saveToDrive e (sugg e) = .ok ()) :
    processEmails env chat (pre ++ rest) =
      (pre.map (fun e => (chat, susMsg e.subject (sugg e))) ++
          (processEmails env chat rest).1,
        pre.map (fun e => (e.subject, sugg e)) ++ (processEmails env chat rest).2.1,
        (processEmails env chat rest).2.2) := by
  induction pre with
  | nil => simp
  | cons e pre ih =>
    have he : e ∈ e :: pre := by simp
    rw [List.cons_append]
    simp only [processEmails, hA e he, hD e he, hS e he]
    rw [ih (fun x hx => hA x (by simp [hx])) (fun x hx => hD x (by simp [hx]))
      (fun x hx => hS x (by simp [hx]))]
    simp

/-! ### Claim theorems -/

/-- Claim C1: when a `/checkemails` invocation fetches `pre ++ bad :: post`
and analysis fails on `bad` (all steps for `pre` having succeeded), exactly
the emails of `pre` are delivered and persisted in fetch order, `bad` and
everything after it is never delivered or persisted, exactly one error
message is sent to the originating chat, and the effects of `pre` are not
rolled back. -/
theorem c1_pipeline_aborts_on_analysis_failure (env : Env) (st : BotState)
    (u chat : Nat) (sender err : String) (pre post : List EmailItem)
    (bad : EmailItem) (sugg : EmailItem → String)
    (hdup : u ∉ st.processed_updates)
    (hsess : lookupSender st.user_sender_names chat = some sender)
    (hfetch : env.fetchEmails sender = .ok (pre ++ bad :: post))
    (hA : ∀ e ∈ pre, env.analyzeEmail e = .ok (sugg e))
    (hD : ∀ e ∈ pre, env.deliver chat (susMsg e.subject (sugg e)) = .ok ())
    (hS : ∀ e ∈ pre, env.saveToDrive e (sugg e) = .ok ())
    (hbad : env.analyzeEmail bad = .error err)
    (herr : env.deliver chat ("Error: " ++ err) = .ok ()) :
    webhook env st (some ⟨u, some (chat, "/checkemails")⟩) =
      ⟨⟨u :: st.processed_updates, st.user_sender_names⟩,
        pre.map (fun e => (chat, susMsg e.subject (sugg e))) ++
          [(chat, "Error: " ++ err)],
        pre.map (fun e => (e.subject, sugg e)), true⟩ := by
  have hstrip : strip "/checkemails" = "/checkemails" := by decide
  have hpe := processEmails_ok_front env chat pre (bad :: post) sugg hA hD hS
  have hbadp : processEmails env chat (bad :: post) = ([], [], some err) := by
    simp [processEmails, hbad]
  rw [hbadp] at hpe
  have hrun : runCheckEmails env chat sender =
      (pre.map (fun e => (chat, susMsg e.subject (sugg e))),
        pre.map (fun e => (e.subject, sugg e)), some err) := by
    simp only [runCheckEmails, hfetch]
    rw [if_neg (by simp), hpe]
    simp
  have hcatch : withErrorCatch env chat (runCheckEmails env chat sender) =
      (pre.map (fun e => (chat, susMsg e.subject (sugg e))) ++
          [(chat, "Error: " ++ err)],
        pre.map (fun e => (e.subject, sugg e)), true) := by
    rw [hrun]; simp [withErrorCatch, herr]
  have hh := handleMessage_checkemails_filter env st.user_sender_names chat
    "/checkemails" sender hstrip hsess
  simp [webhook, hdup, hh, hcatch]

/-- Claim C2: the first webhook call with a fresh `update_id` records it,
and every call carrying an already-recorded `update_id` is a no-op: same
state, no messages sent, nothing persisted. -/
theorem c2_duplicate_update_no_op (env : Env) (st : BotState)
    (u : InboundUpdate) :
    (u.update_id ∈ st.processed_updates →
      webhook env st (some u) = ⟨st, [], [], true⟩) ∧
    (u.update_id ∉ st.processed_updates →
      u.update_id ∈ (webhook env st (some u)).state.processed_updates) := by
  constructor
  · intro h
    simp [webhook, h]
  · intro h
    cases hm : u.message with
    | none => simp [webhook, h, hm]
    | some p =>
      obtain ⟨chat, raw⟩ := p
      simp [webhook, h, hm]

/-- Claim C4: `/checkemails` while no filter is selected never invokes the
mail, completion or persistence collaborators (the result only depends on
the delivery capability) and sends a single message asking for a filter
first. -/
theorem c4_checkemails_without_filter (env : Env) (st : BotState)
    (u chat : Nat) (hdup : u ∉ st.processed_updates)
    (hsess : lookupSender st.user_sender_names chat = none) :
    (∀ env2 : Env, env2.deliver = env.deliver →
      webhook env2 st (some ⟨u, some (chat, "/checkemails")⟩) =
        webhook env st (some ⟨u, some (chat, "/checkemails")⟩)) ∧
    (env.deliver chat promptMsg = .ok () →
      webhook env st (some ⟨u, some (chat, "/checkemails")⟩) =
        ⟨⟨u :: st.processed_updates, st.user_sender_names⟩,
          [(chat, promptMsg)], [], true⟩) := by
  have hstrip : strip "/checkemails" = "/checkemails" := by decide
  constructor
  · intro env2 hdel
    simp only [webhook]
    rw [handleMessage_checkemails_nofilter env2 st.user_sender_names chat
        "/checkemails" hstrip hsess,
      handleMessage_checkemails_nofilter env st.user_sender_names chat
        "/checkemails" hstrip hsess, hdel]
  · intro hdel
    have hh := handleMessage_checkemails_nofilter env st.user_sender_names chat
      "/checkemails" hstrip hsess
    rw [hdel] at hh
    simp [webhook, hdup, hh]

/-- Claim C9: `/listsenders` leaves the session store unchanged whatever
the sender enumeration does (success, empty, or failure) and whatever the
prior state was. -/
theorem c9_listsenders_session_frame (env : Env) (st : BotState)
    (u chat : Nat) (raw : String) (h : strip raw = "/listsenders") :
    (webhook env st (some ⟨u, some (chat, raw)⟩)).state.user_sender_names =
      st.user_sender_names := by
  by_cases hdup : u ∈ st.processed_updates
  · simp [webhook, hdup]
  · simp [webhook, hdup,
      handleMessage_senders_listsenders env st.user_sender_names chat raw h]

/-! ### Lemmas for delivery-dependent acknowledgement -/

theorem withErrorCatch_ok_of_deliver (env : Env) (chat : Nat)
    (body : List (Nat × String) × List (String × String) × Option String)
    (hdel : ∀ t, env.deliver chat t = .ok ()) :
    (withErrorCatch env chat body).2.2 = true := by
  obtain ⟨s, r, x⟩ := body
  cases x <;> simp [withErrorCatch, hdel]

theorem handleMessage_ok_of_deliver (env : Env) (m : List (Nat × String))
    (chat : Nat) (raw : String) (hdel : ∀ c t, env.deliver c t = .ok ()) :
    (handleMessage env m chat raw).ok = true := by
  simp only [handleMessage]
  split_ifs with h1 h2 h3 h4
  · simp [hdel]
  · simp [withErrorCatch_ok_of_deliver env chat _ (hdel chat)]
  · cases hl : lookupSender m chat with
    | none => simp [hl, hdel]
    | some s => simp [hl, withErrorCatch_ok_of_deliver env chat _ (hdel chat)]
  · simp [hdel]
  · simp [hdel]

/-! ### Concrete environments for counterexamples and scenarios -/

/-- A collaborator environment whose message delivery always fails with a
terminal error, all other collaborators succeeding trivially. -/
def cfailEnv : Env :=
  ⟨fun _ => .ok [], .ok [], fun _ => .ok "", fun _ _ => .ok (),
    fun _ _ => .error "NetworkError"⟩

/-- The end-to-end scenario environment: the mail stub returns two unread
emails for filter "alice@x.com", analysis and persistence succeed, and
delivery always succeeds. -/
def e2eEnv : Env :=
  ⟨fun s => if s = "alice@x.com" then .ok [⟨"S1", "B1"⟩, ⟨"S2", "B2"⟩]
      else .ok [],
    .ok [], fun e => .ok ("R" ++ e.subject), fun _ _ => .ok (),
    fun _ _ => .ok ()⟩

/-- First step of the end-to-end scenario: update 1 from chat 42 carrying
the free text "alice@x.com". -/
def e2eRun1 : WebhookResult :=
  webhook e2eEnv ⟨[], []⟩ (some ⟨1, some (42, "alice@x.com")⟩)

/-- Second step of the end-to-end scenario: update 2 from chat 42 carrying
"/checkemails", processed against the state left by the first step. -/
def e2eRun2 : WebhookResult :=
  webhook e2eEnv e2eRun1.state (some ⟨2, some (42, "/checkemails")⟩)

/-! ### Remaining claim theorems -/

/-- Counterexample to claim C3 as stated: a stub that fails transiently at
every attempt is called exactly 5 times, but the sequence of sleeps is
`[1, 2, 4, 8]` — a delay of 16 time-units never occurs, because no sleep
follows the final attempt. -/
theorem c3_delay_sequence_counterexample :
    send_message_with_retry (fun _ => .timedOut "timeout") 5 =
      (5, [1, 2, 4, 8], .error "timeout") ∧
    (send_message_with_retry (fun _ => .timedOut "timeout") 5).2.1 ≠
      [1, 2, 4, 8, 16] := by decide

/-- Claim C3 as amended: the delivery primitive retries only transient
failures up to 5 attempts with doubling delays starting at 1 — so the
delays are `2 ^ 0 .. 2 ^ 3` and at most four sleeps occur.  A stub failing
transiently `k < 5` times then succeeding is called `k + 1` times and the
call succeeds; a stub failing transiently at all 5 attempts is called
exactly 5 times, sleeps `[1, 2, 4, 8]`, and the call reports terminal
failure; a non-transient failure aborts at the first call with no sleep. -/
theorem c3_retry_policy (send : Nat → SendOutcome) (k : Nat) :
    (k < 5 → (∀ i, i < k → isTransient (send i) = true) →
      send k = .success →
      send_message_with_retry send 5 =
        (k + 1, (List.range k).map (fun j => 2 ^ j), .ok ())) ∧
    ((∀ i, i < 5 → isTransient (send i) = true) →
      ∃ m, send_message_with_retry send 5 = (5, [1, 2, 4, 8], .error m)) ∧
    (∀ m, send 0 = .otherError m →
      send_message_with_retry send 5 = (1, [], .error m)) := by
  refine ⟨?_, ?_, ?_⟩
  · intro hk htr hsucc
    have h0 := retryAux_transient_run send 5 k 0 (by omega)
      (fun i _ hi2 => htr i (by omega)) (by simpa using hsucc)
    simp only [Nat.sub_zero] at h0
    rw [send_message_with_retry, h0, List.range_eq_range']
  · intro htr
    obtain ⟨m, hm⟩ := retryAux_all_transient send 5 5 0 (by omega) (by omega)
      (fun i _ hi2 => htr i hi2)
    have he : (List.range' 0 (5 - 1)).map (fun j => 2 ^ j) = [1, 2, 4, 8] := by
      decide
    rw [he] at hm
    exact ⟨m, hm⟩
  · intro m hm
    simp [send_message_with_retry, retryAux, hm]

/-- Counterexample to claim C5 as stated: with the welcome delivery failing
terminally, `/start` leaves the previously selected filter "bob" in place
instead of clearing the session. -/
theorem c5_start_delivery_failure_keeps_filter :
    lookupSender (webhook cfailEnv ⟨[], [(42, "bob")]⟩
        (some ⟨1, some (42, "/start")⟩)).state.user_sender_names 42 =
      some "bob" := by decide

/-- Claim C5 as amended: processing `/start` clears the chat's session
whenever the welcome delivery succeeds, regardless of prior state; when
the welcome delivery fails terminally the session map is left unchanged
and the exception propagates out of the handler. -/
theorem c5_start_clears_session (env : Env) (st : BotState) (u chat : Nat)
    (hdup : u ∉ st.processed_updates) :
    (env.deliver chat startMessage = .ok () →
      lookupSender (webhook env st
          (some ⟨u, some (chat, "/start")⟩)).state.user_sender_names chat =
        none) ∧
    (∀ e, env.deliver chat startMessage = .error e →
      (webhook env st
            (some ⟨u, some (chat, "/start")⟩)).state.user_sender_names =
          st.user_sender_names ∧
        (webhook env st (some ⟨u, some (chat, "/start")⟩)).ok = false) := by
  have hstrip : strip "/start" = "/start" := by decide
  have hh := handleMessage_start env st.user_sender_names chat "/start" hstrip
  constructor
  · intro hdel
    rw [hdel] at hh
    simp [webhook, hdup, hh, lookupSender_popSender]
  · intro e hdel
    rw [hdel] at hh
    simp [webhook, hdup, hh]

/-- Claim C6: an error in any command or pipeline step aborts only the
current invocation: the `update_id` recorded before handling stays
recorded whatever happens, the command branches `/checkemails` and
`/listsenders` never mutate the session map, and a filter committed
before a failing acknowledgement delivery stays committed. -/
theorem c6_error_isolation (env : Env) (st : BotState) (u chat : Nat)
    (raw : String) :
    u ∈ (webhook env st
        (some ⟨u, some (chat, raw)⟩)).state.processed_updates ∧
    ((strip raw = "/checkemails" ∨ strip raw = "/listsenders") →
      (webhook env st (some ⟨u, some (chat, raw)⟩)).state.user_sender_names =
        st.user_sender_names) ∧
    (u ∉ st.processed_updates → lookupSender st.user_sender_names chat = none →
      startsWithSlash (strip raw) = false →
      lookupSender (webhook env st
          (some ⟨u, some (chat, raw)⟩)).state.user_sender_names chat =
        some (strip raw)) := by
  refine ⟨?_, ?_, ?_⟩
  · by_cases hdup : u ∈ st.processed_updates
    · simp [webhook, hdup]
    · simp [webhook, hdup]
  · intro h
    by_cases hdup : u ∈ st.processed_updates
    · simp [webhook, hdup]
    · cases h with
      | inl h =>
        simp [webhook, hdup,
          handleMessage_senders_checkemails env st.user_sender_names chat raw h]
      | inr h =>
        simp [webhook, hdup,
          handleMessage_senders_listsenders env st.user_sender_names chat raw h]
  · intro hdup hl hsw
    have hh := handleMessage_freetext env st.user_sender_names chat raw hl hsw
    simp [webhook, hdup, hh, lookupSender_setSender]

/-- Counterexample to claim C7 as stated: with delivery failing terminally,
the `/start` handler lets the exception propagate instead of returning the
fixed "OK" acknowledgement. -/
theorem c7_not_always_ok :
    (webhook cfailEnv ⟨[], []⟩ (some ⟨1, some (42, "/start")⟩)).ok = false := by
  decide

/-- Claim C7 as amended: the handler returns the fixed "OK"
acknowledgement for malformed requests (missing `update_id`), for
duplicate updates, and for every update whenever message delivery
succeeds — collaborator errors are caught and reported via chat messages;
only a terminal delivery failure escapes the handler. -/
theorem c7_fixed_acknowledgement (env : Env) (st : BotState) :
    webhook env st none = ⟨st, [], [], true⟩ ∧
    (∀ u : InboundUpdate, u.update_id ∈ st.processed_updates →
      webhook env st (some u) = ⟨st, [], [], true⟩) ∧
    ((∀ c t, env.deliver c t = .ok ()) →
      ∀ upd : Option InboundUpdate, (webhook env st upd).ok = true) := by
  refine ⟨rfl, ?_, ?_⟩
  · intro u h
    simp [webhook, h]
  · intro hdel upd
    cases upd with
    | none => rfl
    | some u =>
      by_cases hdup : u.update_id ∈ st.processed_updates
      · simp [webhook, hdup]
      · cases hm : u.message with
        | none => simp [webhook, hdup, hm]
        | some p =>
          obtain ⟨chat, raw⟩ := p
          simp [webhook, hdup, hm,
            handleMessage_ok_of_deliver env st.user_sender_names chat raw hdel]

/-- Counterexample to claim C8 as stated: the end-to-end scenario produces
4 outbound sends in total (one ack, two suggestions, one terminal
message), not 7. -/
theorem c8_not_seven_sends :
    e2eRun1.sends.length + e2eRun2.sends.length = 4 ∧
    e2eRun1.sends.length + e2eRun2.sends.length ≠ 7 := by decide

/-- Claim C8 as amended: the end-to-end scenario — update 1 selecting
"alice@x.com" then update 2 running `/checkemails` with a mail stub
returning two items — produces one "selected sender" ack, two suggestion
messages, two persisted records, and one "all emails processed" message,
in that order: four outbound sends (six effects) in total. -/
theorem c8_end_to_end :
    e2eRun1.sends = [(42, ackMsg "alice@x.com")] ∧
    e2eRun1.saved = [] ∧
    e2eRun2.sends =
      [(42, susMsg "S1" "RS1"), (42, susMsg "S2" "RS2"),
        (42, "All emails processed.")] ∧
    e2eRun2.saved = [("S1", "RS1"), ("S2", "RS2")] ∧
    e2eRun1.ok = true ∧ e2eRun2.ok = true := by decide

/-- Claim C10: classification depends only on the stripped text — two raw
texts with the same stripped form are handled identically — and a filter
stored from free text is exactly the stripped text. -/
theorem c10_strip_classification (env : Env) (st : BotState) (u chat : Nat)
    (raw : String) :
    (∀ raw2 : String, strip raw = strip raw2 →
      webhook env st (some ⟨u, some (chat, raw)⟩) =
        webhook env st (some ⟨u, some (chat, raw2)⟩)) ∧
    (u ∉ st.processed_updates → lookupSender st.user_sender_names chat = none →
      startsWithSlash (strip raw) = false →
      lookupSender (webhook env st
          (some ⟨u, some (chat, raw)⟩)).state.user_sender_names chat =
        some (strip raw)) := by
  constructor
  · intro raw2 h
    have hcongr : handleMessage env st.user_sender_names chat raw =
        handleMessage env st.user_sender_names chat raw2 := by
      simp only [handleMessage, h]
    simp [webhook, hcongr]
  · intro hdup hl hsw
    have hh := handleMessage_freetext env st.user_sender_names chat raw hl hsw
    simp [webhook, hdup, hh, lookupSender_setSender]

/-! ### Witnesses: the claim theorems applied at concrete inputs -/

/-- Environment for exercising the pipeline abort: three emails fetched
for filter "alice", analysis failing on the second. -/
def abortEnv : Env :=
  ⟨fun s => if s = "alice" then .ok [⟨"A", "a"⟩, ⟨"B", "b"⟩, ⟨"C", "c"⟩]
      else .ok [],
    .ok [],
    fun e => if e.subject = "B" then .error "boom" else .ok ("R" ++ e.subject),
    fun _ _ => .ok (), fun _ _ => .ok ()⟩

/-- Witness for C1: with three fetched emails and analysis failing on the
second, exactly the first is delivered and persisted and one error
message is sent. -/
theorem c1_witness :
    webhook abortEnv ⟨[], [(42, "alice")]⟩
        (some ⟨7, some (42, "/checkemails")⟩) =
      ⟨⟨[7], [(42, "alice")]⟩,
        [(42, susMsg "A" "RA"), (42, "Error: boom")], [("A", "RA")], true⟩ :=
  c1_pipeline_aborts_on_analysis_failure abortEnv ⟨[], [(42, "alice")]⟩ 7 42
    "alice" "boom" [⟨"A", "a"⟩] [⟨"C", "c"⟩] ⟨"B", "b"⟩
    (fun e => "R" ++ e.subject) (by decide) (by decide) (by decide)
    (by decide) (by decide) (by decide) (by decide) (by decide)

/-- Witness for C2: replaying update 1 is a no-op, and a fresh update 1
gets recorded. -/
theorem c2_witness :
    webhook e2eEnv ⟨[1], []⟩ (some ⟨1, some (42, "hi")⟩) =
      ⟨⟨[1], []⟩, [], [], true⟩ ∧
    (1 : Nat) ∈ (webhook e2eEnv ⟨[], []⟩
        (some ⟨1, some (42, "hi")⟩)).state.processed_updates :=
  ⟨(c2_duplicate_update_no_op e2eEnv ⟨[1], []⟩ ⟨1, some (42, "hi")⟩).1
      (by decide),
    (c2_duplicate_update_no_op e2eEnv ⟨[], []⟩ ⟨1, some (42, "hi")⟩).2
      (by decide)⟩

/-- Witness for C3: a stub failing transiently twice then succeeding is
called 3 times with delays 1, 2 and succeeds. -/
theorem c3_witness :
    send_message_with_retry
        (fun i => if i < 2 then .timedOut "t" else .success) 5 =
      (3, [1, 2], .ok ()) :=
  (c3_retry_policy (fun i => if i < 2 then .timedOut "t" else .success) 2).1
    (by decide) (by decide) (by decide)

/-- Witness for C4: `/checkemails` with an empty session produces only
the filter prompt. -/
theorem c4_witness :
    webhook e2eEnv ⟨[], []⟩ (some ⟨3, some (42, "/checkemails")⟩) =
      ⟨⟨[3], []⟩, [(42, promptMsg)], [], true⟩ :=
  (c4_checkemails_without_filter e2eEnv ⟨[], []⟩ 3 42 (by decide)
    (by decide)).2 (by decide)

/-- Witness for C5 as amended: `/start` with a successful welcome delivery
clears a previously selected filter. -/
theorem c5_witness :
    lookupSender (webhook e2eEnv ⟨[], [(42, "bob")]⟩
        (some ⟨1, some (42, "/start")⟩)).state.user_sender_names 42 = none :=
  (c5_start_clears_session e2eEnv ⟨[], [(42, "bob")]⟩ 1 42 (by decide)).1
    (by decide)

/-- Witness for C6: even when the acknowledgement delivery fails, the
update id stays recorded and the just-committed filter stays in the
session map. -/
theorem c6_witness :
    (1 : Nat) ∈ (webhook cfailEnv ⟨[], []⟩
        (some ⟨1, some (42, "carol")⟩)).state.processed_updates ∧
    lookupSender (webhook cfailEnv ⟨[], []⟩
        (some ⟨1, some (42, "carol")⟩)).state.user_sender_names 42 =
      some (strip "carol") :=
  ⟨(c6_error_isolation cfailEnv ⟨[], []⟩ 1 42 "carol").1,
    (c6_error_isolation cfailEnv ⟨[], []⟩ 1 42 "carol").2.2 (by decide)
      (by decide) (by decide)⟩

/-- Witness for C7 as amended: a duplicate update returns "OK" unchanged,
and with delivery succeeding every update returns "OK". -/
theorem c7_witness :
    webhook e2eEnv ⟨[5], []⟩ (some ⟨5, some (42, "/start")⟩) =
      ⟨⟨[5], []⟩, [], [], true⟩ ∧
    (webhook e2eEnv ⟨[], []⟩ (some ⟨9, some (42, "/listsenders")⟩)).ok =
      true :=
  ⟨(c7_fixed_acknowledgement e2eEnv ⟨[5], []⟩).2.1 ⟨5, some (42, "/start")⟩
      (by decide),
    (c7_fixed_acknowledgement e2eEnv ⟨[], []⟩).2.2 (fun _ _ => rfl)
      (some ⟨9, some (42, "/listsenders")⟩)⟩

/-- Witness for C9: `/listsenders` (with surrounding whitespace, and with
an environment whose collaborators fail) leaves the session entry for
chat 42 untouched. -/
theorem c9_witness :
    (webhook cfailEnv ⟨[], [(42, "bob")]⟩
        (some ⟨1, some (42, " /listsenders ")⟩)).state.user_sender_names =
      [(42, "bob")] :=
  c9_listsenders_session_frame cfailEnv ⟨[], [(42, "bob")]⟩ 1 42
    " /listsenders " (by decide)

/-- Witness for C10: a `/start` surrounded by whitespace is handled
exactly like a bare `/start`. -/
theorem c10_witness :
    webhook e2eEnv ⟨[], []⟩ (some ⟨4, some (42, "  /start  ")⟩) =
      webhook e2eEnv ⟨[], []⟩ (some ⟨4, some (42, "/start")⟩) :=
  (c10_strip_classification e2eEnv ⟨[], []⟩ 4 42 "  /start  ").1 "/start"
    (by decide)

end EmailBot
